import Mathlib

set_option maxRecDepth 8000
set_option maxHeartbeats 1000000

/- Shallow embedding of the telegraf smtp input plugin
   (plugins/inputs/smtp/smtp.go): the session driver `SMTPGather`, its
   helpers `performCommand`, `checkResponse`, `setMetrics`, `setResult`,
   and the `Gather` entry point, together with the behavior of the Go
   library calls they rely on (net/textproto `ReadResponse`,
   net `SplitHostPort`).  The server is modelled as a script: a dial
   outcome, a list of per-write outcomes for `text.Cmd`, and a list of
   wire-level replies consumed in order by the response reads.  Seconds
   values produced by the timers are abstracted to an opaque marker,
   since only their presence in the fields map is observable here.  An
   instrumentation trace records, in program order, the dial, each
   command write, each response read, and the two timer latches. -/

/-- The eight protocol steps, mirroring the `Operation` string constants of smtp.go. -/
inductive Operation
  | Connect | Ehlo | StartTls | MailFrom | RcptTo | Data | Body | Quit
deriving DecidableEq

/-- The string value of each `Operation` constant in smtp.go. -/
def opName : Operation → String
  | .Connect => "connect"
  | .Ehlo => "ehlo"
  | .StartTls => "starttls"
  | .MailFrom => "from"
  | .RcptTo => "to"
  | .Data => "data"
  | .Body => "body"
  | .Quit => "quit"

/-- The `ResultType` enumeration of smtp.go (iota-numbered from 0). -/
inductive ResultType
  | Success | Timeout | ConnectionFailed | ReadFailed | StringMismatch
  | TlsConfigError | CommandFailed
deriving DecidableEq

/-- The numeric value of each `ResultType` constant (`uint64(result)` in setResult). -/
def ResultType.toNat : ResultType → Nat
  | .Success => 0
  | .Timeout => 1
  | .ConnectionFailed => 2
  | .ReadFailed => 3
  | .StringMismatch => 4
  | .TlsConfigError => 5
  | .CommandFailed => 6

/-- The tag string chosen by the `switch` in `setResult` (smtp.go lines 226-245).
    The switch has no case for `CommandFailed`, so for it the Go zero value of
    `var tag string` — the empty string — is used. -/
def resultTag : ResultType → String
  | .Success => "success"
  | .Timeout => "timeout"
  | .ConnectionFailed => "connection_failed"
  | .ReadFailed => "read_failed"
  | .StringMismatch => "string_mismatch"
  | .TlsConfigError => "tls_config_error"
  | .CommandFailed => ""

/-- A value stored in the fields map: an int response code, the uint64
    result code, or a float seconds value (whose magnitude is abstracted). -/
inductive FieldValue
  | vCode (n : Nat)
  | vResult (n : Nat)
  | vTime
deriving DecidableEq

/-- One wire-level reply to a `ReadResponse` call, at the granularity
    distinguished by net/textproto's `readCodeLine`/`parseCodeLine`:
    * `timeout`     — the read fails with a net.Error whose Timeout() is true;
    * `ioError`     — the read fails with any other non-textproto error (EOF, reset);
    * `shortLine`   — a line shorter than 4 bytes or whose 4th byte is not
                      a space or hyphen: ProtocolError, code 0;
    * `nonNumeric`  — the first three bytes are not a number: ProtocolError, code 0;
    * `lowCode n`   — the first three bytes parse to a number n below 100:
                      ProtocolError, but the parsed number n is returned as the code;
    * `code n`      — a well-formed (possibly multi-line) reply with three-digit
                      status code n (so in reality 100 ≤ n ≤ 999). -/
inductive WireReply
  | timeout
  | ioError
  | shortLine
  | nonNumeric
  | lowCode (n : Nat)
  | code (n : Nat)
deriving DecidableEq

/-- Classification of the error value returned by textproto `ReadResponse`:
    nil, a net.Error timeout, a `*textproto.Error` carrying the mismatched
    code, or anything else (ProtocolError, EOF, reset). -/
inductive RespErr
  | ok
  | netTimeout
  | mismatch (code : Nat)
  | other
deriving DecidableEq

/-- Outcome of `net.DialTimeout`: success, a net.Error with Timeout() true,
    or any other error. -/
inductive DialResult
  | ok
  | timeoutErr
  | otherErr
deriving DecidableEq

/-- Instrumentation events, in program order: the dial and its outcome, a
    `text.Cmd` write of a command line and its outcome, a `ReadResponse`
    read for a step and whether it returned without error, and the latching
    of one of the two timer fields. -/
inductive Event
  | dial (ok : Bool)
  | cmd (msg : String) (ok : Bool)
  | read (op : Operation) (ok : Bool)
  | latch (name : String)
deriving DecidableEq

/-- Insert into a Go map modelled as an association list: replace the
    binding if the key is present, else append it. -/
def insertKV : List (String × α) → String → α → List (String × α)
  | [], k, v => [(k, v)]
  | (k', v') :: rest, k, v =>
      if k' = k then (k, v) :: rest else (k', v') :: insertKV rest k v

/-- Lookup in a Go map modelled as an association list. -/
def findKV : List (String × α) → String → Option α
  | [], _ => none
  | (k', v') :: rest, k => if k' = k then some v' else findKV rest k

/-- The scripted behavior of the server (and network) during one session. -/
structure Server where
  dial : DialResult
  writes : List Bool
  replies : List WireReply
deriving DecidableEq

/-- The `Smtp` configuration struct of smtp.go.  Durations are nanoseconds.
    `TlsConfigOk` models the outcome of `config.ClientConfig.TLSConfig()`
    (from telegraf's internal/tls package, which is not part of these
    sources): it is true exactly when that call returns a non-nil
    `*tls.Config` and a nil error. -/
structure Smtp where
  Address : String
  Timeout : Nat
  ReadTimeout : Nat
  Ehlo : String
  From : String
  To : String
  Body : String
  StartTls : Bool
  TlsConfigOk : Bool
deriving DecidableEq

/-- The mutable state of one session: the two result maps being built,
    the instrumentation trace, and the unconsumed parts of the server
    script. -/
structure St where
  fields : List (String × FieldValue)
  tags : List (String × String)
  trace : List Event
  writes : List Bool
  replies : List WireReply
deriving DecidableEq

def St.emit (st : St) (e : Event) : St := { st with trace := st.trace ++ [e] }

/-- Consume the outcome of the next `text.Cmd` write; an exhausted script
    means the write succeeds. -/
def St.popWrite (st : St) : Bool × St :=
  match st.writes with
  | [] => (true, st)
  | w :: ws => (w, { st with writes := ws })

/-- Consume the next wire reply; an exhausted script behaves as an I/O
    error (EOF). -/
def St.popReply (st : St) : WireReply × St :=
  match st.replies with
  | [] => (WireReply.ioError, st)
  | r :: rs => (r, { st with replies := rs })

/-- `setResult` (smtp.go lines 226-245): store `uint64(result)` under
    `result_code` and the switch-selected tag under `result`. -/
def setResult (result : ResultType) (st : St) : St :=
  { st with
    fields := insertKV st.fields "result_code" (FieldValue.vResult result.toNat),
    tags := insertKV st.tags "result" (resultTag result) }

/-- `setMetrics` (smtp.go lines 219-224): `setResult`, then record the
    observed code under `<operation>_code` when it is nonzero. -/
def setMetrics (result : ResultType) (operation : Operation) (foundCode : Nat) (st : St) : St :=
  let st := setResult result st
  if foundCode ≠ 0 then
    { st with fields := insertKV st.fields (opName operation ++ "_code") (FieldValue.vCode foundCode) }
  else st

/-- The expect-code check of net/textproto `parseCodeLine`: the error
    `&Error{code, message}` is produced exactly when this mismatch
    condition holds. -/
def goMismatch (expectCode code : Nat) : Bool :=
  decide ((1 ≤ expectCode ∧ expectCode < 10 ∧ code / 100 ≠ expectCode) ∨
    (10 ≤ expectCode ∧ expectCode < 100 ∧ code / 10 ≠ expectCode) ∨
    (100 ≤ expectCode ∧ expectCode < 1000 ∧ code ≠ expectCode))

/-- The `(code, err)` pair returned by textproto `ReadResponse(expectCode)`
    for one wire reply. -/
def readResponse (expectCode : Nat) (r : WireReply) : Nat × RespErr :=
  match r with
  | .timeout => (0, .netTimeout)
  | .ioError => (0, .other)
  | .shortLine => (0, .other)
  | .nonNumeric => (0, .other)
  | .lowCode n => (n, .other)
  | .code n => if goMismatch expectCode n then (n, .mismatch n) else (n, .ok)

/-- `checkResponse` (smtp.go lines 200-217): read one reply and classify.
    A net timeout gives `Timeout`; a `*textproto.Error` with nonzero code
    gives `StringMismatch`; every other error gives `ReadFailed`; no error
    gives `Success`.  In each branch the code returned by `ReadResponse`
    is handed to `setMetrics`. -/
def checkResponse (operation : Operation) (expectedCode : Nat) (st : St) : Bool × St :=
  let (r, st) := st.popReply
  let (code, err) := readResponse expectedCode r
  let st := st.emit (Event.read operation (err = RespErr.ok))
  match err with
  | .ok => (true, setMetrics .Success operation code st)
  | .netTimeout => (false, setMetrics .Timeout operation code st)
  | .mismatch c =>
      if c ≠ 0 then (false, setMetrics .StringMismatch operation code st)
      else (false, setMetrics .ReadFailed operation code st)
  | .other => (false, setMetrics .ReadFailed operation code st)

/-- `performCommand` (smtp.go lines 186-198): write the command; a write
    error sets `CommandFailed` and stops; otherwise check the response. -/
def performCommand (operation : Operation) (msg : String) (expectedCode : Nat) (st : St) : Bool × St :=
  let (w, st) := st.popWrite
  let st := st.emit (Event.cmd msg w)
  if w then checkResponse operation expectedCode st
  else (false, setResult .CommandFailed st)

/-- A bare `text.Cmd` whose error and id are ignored (the cleanup QUIT of
    the TLS-configuration-error branch, smtp.go line 147). -/
def textCmd (msg : String) (st : St) : St :=
  let (w, st) := st.popWrite
  st.emit (Event.cmd msg w)

/-- Latch one of the two timer fields (`fields[name] = time.Since(start).Seconds()`). -/
def latchField (name : String) (st : St) : St :=
  St.emit { st with fields := insertKV st.fields name FieldValue.vTime } (Event.latch name)

/-- One `if success && cond { success = run(...) }` gate of SMTPGather. -/
def gate (cond : Bool) (run : St → Bool × St) (acc : Bool × St) : Bool × St :=
  if acc.1 && cond then run acc.2 else acc

/-- The STARTTLS branch of SMTPGather (smtp.go lines 142-159): if
    `config.ClientConfig.TLSConfig()` errors or yields nil, send a bare
    QUIT, set `TlsConfigError` and fail; otherwise run the STARTTLS
    exchange (the subsequent in-place TLS upgrade of the connection does
    not consume or produce protocol replies). -/
def runStartTls (config : Smtp) (st : St) : Bool × St :=
  if !config.TlsConfigOk then
    let st := textCmd "QUIT" st
    (false, setResult .TlsConfigError st)
  else
    performCommand .StartTls "STARTTLS" 220 st

/-- The DATA/body branch of SMTPGather (smtp.go lines 167-174): first the
    response to DATA, then the response to the terminated payload. -/
def runBody (config : Smtp) (st : St) : Bool × St :=
  let (s, st) := performCommand .Data "DATA" 354 st
  if s then performCommand .Body (config.Body ++ "\r\n.\r\n") 250 st
  else (s, st)

/-- `SMTPGather` (smtp.go lines 104-184).  Dial; on error classify Timeout
    or ConnectionFailed and return at once.  Otherwise read the greeting,
    latch `connect_time`, and return early if the greeting check failed.
    Then run the gated steps in order (ehlo, starttls, from, to,
    data+body), execute QUIT only if `success` still holds, and latch
    `total_time`. -/
def SMTPGather (config : Smtp) (srv : Server) : St :=
  let st : St := { fields := [], tags := [], trace := [], writes := srv.writes, replies := srv.replies }
  match srv.dial with
  | .timeoutErr => setResult .Timeout (st.emit (Event.dial false))
  | .otherErr => setResult .ConnectionFailed (st.emit (Event.dial false))
  | .ok =>
    let st := st.emit (Event.dial true)
    let (success, st) := checkResponse .Connect 220 st
    let st := latchField "connect_time" st
    if !success then st
    else
      let a := gate (config.Ehlo != "") (performCommand .Ehlo ("EHLO " ++ config.Ehlo) 250) (true, st)
      let a := gate config.StartTls (runStartTls config) a
      let a := gate (config.From != "") (performCommand .MailFrom ("MAIL FROM:" ++ config.From) 250) a
      let a := gate (config.To != "") (performCommand .RcptTo ("RCPT TO:" ++ config.To) 250) a
      let a := gate (config.Body != "") (runBody config) a
      let a := gate true (performCommand .Quit "QUIT" 221) a
      latchField "total_time" a.2

/-- Index of the first occurrence of a byte, as Go's `byteIndex`. -/
def indexOfChar : List Char → Char → Option Nat
  | [], _ => none
  | a :: rest, c => if a = c then some 0 else (indexOfChar rest c).map (· + 1)

/-- Index of the last occurrence of a byte, as Go's `last`. -/
def lastIndexOf (l : List Char) (c : Char) : Option Nat :=
  match indexOfChar l.reverse c with
  | none => none
  | some i => some (l.length - 1 - i)

/-- The message of a `net.AddrError` as rendered by its `Error()` method. -/
def addrErrMsg (addr why : String) : String := "address " ++ addr ++ ": " ++ why

/-- Go's `net.SplitHostPort`, translated clause by clause. -/
def splitHostPort (hostport : String) : Except String (String × String) :=
  let s := hostport.toList
  match lastIndexOf s ':' with
  | none => .error (addrErrMsg hostport "missing port in address")
  | some i =>
    if s.headD ' ' = '[' then
      match indexOfChar s ']' with
      | none => .error (addrErrMsg hostport "missing ']' in address")
      | some e =>
        if e + 1 = s.length then
          .error (addrErrMsg hostport "missing port in address")
        else if e + 1 = i then
          if (indexOfChar (s.drop 1) '[').isSome then
            .error (addrErrMsg hostport "unexpected '[' in address")
          else if (indexOfChar (s.drop (e + 1)) ']').isSome then
            .error (addrErrMsg hostport "unexpected ']' in address")
          else
            .ok (String.mk ((s.drop 1).take (e - 1)), String.mk (s.drop (i + 1)))
        else
          if s.getD (e + 1) ' ' = ':' then
            .error (addrErrMsg hostport "too many colons in address")
          else
            .error (addrErrMsg hostport "missing port in address")
    else
      let host := s.take i
      if (indexOfChar host ':').isSome then
        .error (addrErrMsg hostport "too many colons in address")
      else if (indexOfChar s '[').isSome then
        .error (addrErrMsg hostport "unexpected '[' in address")
      else if (indexOfChar s ']').isSome then
        .error (addrErrMsg hostport "unexpected ']' in address")
      else
        .ok (String.mk host, String.mk (s.drop (i + 1)))

/-- One measurement handed to the accumulator by `acc.AddFields`. -/
structure Measurement where
  name : String
  fields : List (String × FieldValue)
  tags : List (String × String)
deriving DecidableEq

def nsSecond : Nat := 1000000000

/-- `Gather` (smtp.go lines 255-287): apply the timeout defaults, split
    the address, propagate the split error, rewrite an empty host to
    localhost, fail on an empty port, run the session, merge the session
    tags over the base tags, and add one `smtp` measurement.  The returned
    `Smtp` value reflects the mutations Gather performs on its receiver. -/
def Gather (smtp : Smtp) (srv : Server) : Except String (Smtp × Measurement) :=
  let smtp := if smtp.Timeout = 0 then { smtp with Timeout := nsSecond } else smtp
  let smtp := if smtp.ReadTimeout = 0 then { smtp with ReadTimeout := 10 * nsSecond } else smtp
  match splitHostPort smtp.Address with
  | .error e => .error e
  | .ok (host, port) =>
    let smtp := if host = "" then { smtp with Address := "localhost:" ++ port } else smtp
    if port = "" then .error "Bad port"
    else
      let baseTags := [("server", host), ("port", port)]
      let st := SMTPGather smtp srv
      let tags := st.tags.foldl (fun acc kv => insertKV acc kv.1 kv.2) baseTags
      .ok (smtp, { name := "smtp", fields := st.fields, tags := tags })

/-- The read events of a trace, in order, as (step, succeeded) pairs. -/
def readEvents (t : List Event) : List (Operation × Bool) :=
  t.filterMap fun e =>
    match e with
    | .read op ok => some (op, ok)
    | _ => none

/-- The steps read from the server, in order. -/
def readOps (t : List Event) : List Operation := (readEvents t).map Prod.fst

/-- The expected status code of each step, as hard-coded at the
    SMTPGather call sites. -/
def expectedCode : Operation → Nat
  | .Connect => 220
  | .Ehlo => 250
  | .StartTls => 220
  | .MailFrom => 250
  | .RcptTo => 250
  | .Data => 354
  | .Body => 250
  | .Quit => 221

/-- The steps a configuration plans, in the fixed source order; optional
    steps with empty configuration are absent. -/
def plannedSteps (config : Smtp) : List Operation :=
  [Operation.Connect]
    ++ (if config.Ehlo != "" then [Operation.Ehlo] else [])
    ++ (if config.StartTls then [Operation.StartTls] else [])
    ++ (if config.From != "" then [Operation.MailFrom] else [])
    ++ (if config.To != "" then [Operation.RcptTo] else [])
    ++ (if config.Body != "" then [Operation.Data, Operation.Body] else [])
    ++ [Operation.Quit]

/-- The result tags enumerated by the spec (with the step-failed variants
    collapsed into the single `command_failed` granularity actually coded,
    which the source renders as the absence of a switch case). -/
def enumeratedTags : List String :=
  ["success", "timeout", "connection_failed", "read_failed", "string_mismatch", "tls_config_error"]

/-- Recognizer for a QUIT command write in the trace. -/
def isQuitCmd : Event → Bool
  | .cmd "QUIT" _ => true
  | _ => false

/-- A configuration with every optional step disabled (test default address
    and timeouts). -/
def cfgBase : Smtp := ⟨"127.0.0.1:2004", 1000000000, 2000000000, "", "", "", "", false, true⟩

/-- A configuration that only adds an EHLO identity. -/
def cfgEhloOnly : Smtp := ⟨"127.0.0.1:2004", 1000000000, 2000000000, "me@test.com", "", "", "", false, true⟩

/-- A configuration requesting STARTTLS whose TLS client configuration
    fails to build. -/
def cfgTlsBad : Smtp := ⟨"127.0.0.1:2004", 1000000000, 2000000000, "", "", "", "", true, false⟩

/-- EHLO configured, used with a failing first write. -/
def cfgEhloX : Smtp := ⟨"127.0.0.1:2004", 1000000000, 2000000000, "x", "", "", "", false, true⟩

/-- An address with an empty host and port 25, with unset timeouts. -/
def cfgColon25 : Smtp := ⟨":25", 0, 0, "", "", "", "", false, true⟩

/-- A server that greets with 220 and answers QUIT with 221. -/
def srvMinimalOk : Server := ⟨.ok, [], [.code 220, .code 221]⟩

/-- A server that greets with 220 and answers the next command with 421. -/
def srvEhlo421 : Server := ⟨.ok, [], [.code 220, .code 421]⟩

/-- A connection refused at dial time (non-timeout dial error). -/
def srvRefused : Server := ⟨.otherErr, [], []⟩

/-- A server that only sends the 220 greeting. -/
def srvGreetOnly : Server := ⟨.ok, [], [.code 220]⟩

/-- A server whose connection accepts no writes after the greeting. -/
def srvWriteFail : Server := ⟨.ok, [false], [.code 220]⟩

/-- A fresh session state whose next reply is the malformed line
    "099 ..." (three leading bytes parse to 99 < 100). -/
def stLow : St := ⟨[], [], [], [], [.lowCode 99]⟩

/-- The session state after one `ReadResponse`: the reply is consumed and
    the read event appended. -/
def stAfterRead (op : Operation) (ok : Bool) (st : St) (rest : List WireReply) : St :=
  { st with replies := rest, trace := st.trace ++ [Event.read op ok] }

/-- Relation between the steps a block of code plans and the read events
    it actually performed: on success every planned step was read and
    succeeded; on failure the reads are a prefix of the plan whose last
    element may have failed. -/
def ReadsRel (P : List Operation) (rs : List (Operation × Bool)) (success : Bool) : Prop :=
  if success then rs = P.map (fun op => (op, true))
  else ∃ e1 e2, P = e1 ++ e2 ∧
    (rs = e1.map (fun op => (op, true)) ∨
     ∃ op e3, e2 = op :: e3 ∧ rs = e1.map (fun op => (op, true)) ++ [(op, false)])

/-- The contract of one step-runner used by the gated chain of
    SMTPGather: it appends a latch-free block of events to the trace
    whose reads stand in `ReadsRel` to the steps it is responsible for,
    leaves the `connect_time` field alone, and always leaves a
    switch-produced `result` tag behind. -/
def RunnerSpec (E : List Operation) (run : St → Bool × St) : Prop :=
  ∀ st : St, ∃ d, ((run st).2.trace = st.trace ++ d) ∧ (∀ s, Event.latch s ∉ d) ∧
    findKV (run st).2.fields "connect_time" = findKV st.fields "connect_time" ∧
    (∃ rt, findKV (run st).2.tags "result" = some (resultTag rt)) ∧
    ReadsRel E (readEvents d) ((run st).1)

/-- The session state after the `text.Cmd` write of `performCommand`. -/
def stAfterCmd (msg : String) (st : St) : St :=
  { st with writes := st.writes.tail, trace := st.trace ++ [Event.cmd msg (st.writes.headD true)] }

/-- Invariant carried through the gated chain of SMTPGather, relative to
    the state right after the connect-time latch: the trace has grown by a
    latch-free block whose reads realize the steps planned so far, the
    `connect_time` field is untouched, and a `result` tag is present. -/
def ChainInv (stL : St) (P : List Operation) (acc : Bool × St) : Prop :=
  ∃ ds, acc.2.trace = stL.trace ++ ds ∧ (∀ s, Event.latch s ∉ ds) ∧
    findKV acc.2.fields "connect_time" = findKV stL.fields "connect_time" ∧
    (∃ rt, findKV acc.2.tags "result" = some (resultTag rt)) ∧
    ReadsRel P (readEvents ds) acc.1

/-- The steps after connect that a configuration plans. -/
def plannedTail (config : Smtp) : List Operation :=
  (if config.Ehlo != "" then [Operation.Ehlo] else [])
    ++ ((if config.StartTls then [Operation.StartTls] else [])
    ++ ((if config.From != "" then [Operation.MailFrom] else [])
    ++ ((if config.To != "" then [Operation.RcptTo] else [])
    ++ ((if config.Body != "" then [Operation.Data, Operation.Body] else [])
    ++ [Operation.Quit]))))

/-- The reply script of a server that answers every step of the given
    list with exactly its expected code. -/
def goodReplies (l : List Operation) : List WireReply :=
  l.map (fun op => WireReply.code (expectedCode op))

/-- Contract of a runner on a perfectly scripted server: it succeeds,
    consumes exactly its replies, and reads all its steps successfully. -/
def GoodRun (E : List Operation) (run : St → Bool × St) : Prop :=
  ∀ st R, st.writes = [] → st.replies = goodReplies E ++ R →
    (run st).1 = true ∧ (run st).2.writes = [] ∧ (run st).2.replies = R ∧
    ∃ d, (run st).2.trace = st.trace ++ d ∧ readEvents d = E.map (fun op => (op, true))

/-- A configuration that skips EHLO but configures MAIL FROM. -/
def cfgSkipEhlo : Smtp := ⟨"127.0.0.1:2004", 1000000000, 2000000000, "", "me2@test.com", "", "", false, true⟩

/-- A server scripted perfectly for `cfgSkipEhlo`. -/
def srvSkipEhlo : Server := ⟨.ok, [], goodReplies (plannedSteps cfgSkipEhlo)⟩

/-- C1: with EHLO configured, a 220 greeting and a 421 reply to EHLO, the
    step failure happens before the QUIT step, yet the session writes no
    QUIT command at all: the final block runs only under `if success`.
    The session is classified string_mismatch with ehlo_code 421. -/
theorem quit_skipped_after_ehlo_failure :
    ((SMTPGather cfgEhloOnly srvEhlo421).trace.filter isQuitCmd) = [] ∧
    findKV (SMTPGather cfgEhloOnly srvEhlo421).tags "result" = some "string_mismatch" ∧
    findKV (SMTPGather cfgEhloOnly srvEhlo421).fields "ehlo_code" = some (FieldValue.vCode 421) := by
  decide

/-- C2: when the dial itself fails, SMTPGather returns before either timer
    is latched, so the fields map has no `total_time` (and carries only
    the connection_failed result code). -/
theorem total_time_missing_on_connection_failure :
    findKV (SMTPGather cfgBase srvRefused).fields "total_time" = none ∧
    (SMTPGather cfgBase srvRefused).fields = [("result_code", FieldValue.vResult 2)] ∧
    findKV (SMTPGather cfgBase srvRefused).tags "result" = some "connection_failed" := by
  decide

/-- C3 counterexample: on the failure path of the connect (dial error),
    `connect_time` is never recorded, contradicting the claim that it is
    latched on both the success and the failure path of the connect. -/
theorem connect_time_missing_on_dial_failure :
    findKV (SMTPGather cfgBase srvRefused).fields "connect_time" = none := by
  decide

/-- C4 counterexample: when STARTTLS is requested and the TLS client
    configuration fails to build, the session does classify
    tls_config_error with result_code 5, but a QUIT command IS written to
    the connection (smtp.go line 147), contradicting the claimed hard
    stop without QUIT. -/
theorem quit_sent_on_tls_config_error :
    ((SMTPGather cfgTlsBad srvGreetOnly).trace.filter isQuitCmd) = [Event.cmd "QUIT" true] ∧
    findKV (SMTPGather cfgTlsBad srvGreetOnly).tags "result" = some "tls_config_error" ∧
    findKV (SMTPGather cfgTlsBad srvGreetOnly).fields "result_code" = some (FieldValue.vResult 5) := by
  decide

/-- C5 counterexample: a malformed reply line whose first three bytes
    parse to 99 (below 100) cannot be parsed as a response — textproto
    returns a ProtocolError — so the step is classified read_failed, yet
    the parsed number 99 is still recorded as the step's code field,
    contradicting the claim that an unparsable reply produces no code
    field. -/
theorem malformed_low_code_reply_records_code :
    findKV (checkResponse .Connect 220 stLow).2.tags "result" = some "read_failed" ∧
    findKV (checkResponse .Connect 220 stLow).2.fields "connect_code" = some (FieldValue.vCode 99) := by
  decide

/-- C9 counterexample: when a command write fails (CommandFailed branch,
    result_code 6), the `setResult` switch has no matching case, so the
    emitted `result` tag is the empty string — not one of the enumerated
    classification strings. -/
theorem command_failed_empty_result_tag :
    findKV (SMTPGather cfgEhloX srvWriteFail).tags "result" = some "" ∧
    findKV (SMTPGather cfgEhloX srvWriteFail).fields "result_code" = some (FieldValue.vResult 6) := by
  decide

/-- C10: with address ":25" (empty host, nonempty port), Gather rewrites
    the dial address to "localhost:25" — visible in the returned receiver
    and in the defaulted timeouts — while the emitted `server` tag keeps
    the empty host parsed from the original address. -/
theorem gather_empty_host_keeps_empty_server_tag :
    Gather cfgColon25 srvMinimalOk =
      .ok (⟨"localhost:25", 1000000000, 10000000000, "", "", "", "", false, true⟩,
        ⟨"smtp",
          [("result_code", FieldValue.vResult 0), ("connect_code", FieldValue.vCode 220),
            ("connect_time", FieldValue.vTime), ("quit_code", FieldValue.vCode 221),
            ("total_time", FieldValue.vTime)],
          [("server", ""), ("port", "25"), ("result", "success")]⟩) := by
  rfl

theorem findKV_insertKV_self (l : List (String × α)) (k : String) (v : α) :
    findKV (insertKV l k v) k = some v := by
  induction l with
  | nil => simp [insertKV, findKV]
  | cons hd tl ih =>
    obtain ⟨k', v'⟩ := hd
    by_cases h : k' = k
    · simp [insertKV, findKV, h]
    · simp [insertKV, findKV, h, ih]

theorem findKV_insertKV_ne (l : List (String × α)) (k k2 : String) (v : α) (h : k ≠ k2) :
    findKV (insertKV l k v) k2 = findKV l k2 := by
  induction l with
  | nil => simp [insertKV, findKV, h]
  | cons hd tl ih =>
    obtain ⟨k', v'⟩ := hd
    by_cases h' : k' = k
    · subst h'
      simp [insertKV, findKV, h]
    · simp [insertKV, findKV, h', ih]

theorem opCode_ne_result_code (op : Operation) : opName op ++ "_code" ≠ "result_code" := by
  cases op <;> decide

/-- C7: for every configuration whose optional steps are all disabled, a
    server replying 220 to the connection and 221 to QUIT yields
    result=success, result_code=0, connect_code=220 and quit_code=221,
    and no other step-code field. -/
theorem minimal_config_success_two_codes (config : Smtp)
    (h1 : config.Ehlo = "") (h2 : config.From = "") (h3 : config.To = "")
    (h4 : config.Body = "") (h5 : config.StartTls = false) :
    findKV (SMTPGather config srvMinimalOk).tags "result" = some "success" ∧
    findKV (SMTPGather config srvMinimalOk).fields "result_code" = some (FieldValue.vResult 0) ∧
    findKV (SMTPGather config srvMinimalOk).fields "connect_code" = some (FieldValue.vCode 220) ∧
    findKV (SMTPGather config srvMinimalOk).fields "quit_code" = some (FieldValue.vCode 221) ∧
    ∀ op : Operation, op ≠ Operation.Connect → op ≠ Operation.Quit →
      findKV (SMTPGather config srvMinimalOk).fields (opName op ++ "_code") = none := by
  obtain ⟨A, T, RT, E, F, Tt, B, S, TC⟩ := config
  dsimp only at h1 h2 h3 h4 h5
  subst h1 h2 h3 h4 h5
  refine ⟨rfl, rfl, rfl, rfl, ?_⟩
  intro op hc hq
  cases op
  · exact absurd rfl hc
  · rfl
  · rfl
  · rfl
  · rfl
  · rfl
  · rfl
  · exact absurd rfl hq

/-- C7 witness: the property instantiated at the all-empty configuration. -/
theorem minimal_config_success_two_codes_witness :
    findKV (SMTPGather cfgBase srvMinimalOk).tags "result" = some "success" ∧
    findKV (SMTPGather cfgBase srvMinimalOk).fields "ehlo_code" = none :=
  ⟨(minimal_config_success_two_codes cfgBase rfl rfl rfl rfl rfl).1,
   (minimal_config_success_two_codes cfgBase rfl rfl rfl rfl rfl).2.2.2.2
     Operation.Ehlo (by decide) (by decide)⟩

theorem checkResponse_eq_match (op : Operation) (expect n : Nat) (st : St)
    (rest : List WireReply) (hr : st.replies = WireReply.code n :: rest)
    (h : goMismatch expect n = false) :
    checkResponse op expect st = (true, setMetrics .Success op n (stAfterRead op true st rest)) := by
  simp [checkResponse, St.popReply, hr, readResponse, h, stAfterRead, St.emit]

theorem checkResponse_eq_mismatch (op : Operation) (expect n : Nat) (st : St)
    (rest : List WireReply) (hr : st.replies = WireReply.code n :: rest)
    (h : goMismatch expect n = true) (hn : n ≠ 0) :
    checkResponse op expect st
      = (false, setMetrics .StringMismatch op n (stAfterRead op false st rest)) := by
  simp [checkResponse, St.popReply, hr, readResponse, h, hn, stAfterRead, St.emit]

theorem checkResponse_eq_timeout (op : Operation) (expect : Nat) (st : St)
    (rest : List WireReply) (hr : st.replies = WireReply.timeout :: rest) :
    checkResponse op expect st = (false, setMetrics .Timeout op 0 (stAfterRead op false st rest)) := by
  simp [checkResponse, St.popReply, hr, readResponse, stAfterRead, St.emit]

theorem checkResponse_eq_ioError (op : Operation) (expect : Nat) (st : St)
    (rest : List WireReply) (hr : st.replies = WireReply.ioError :: rest) :
    checkResponse op expect st = (false, setMetrics .ReadFailed op 0 (stAfterRead op false st rest)) := by
  simp [checkResponse, St.popReply, hr, readResponse, stAfterRead, St.emit]

theorem checkResponse_eq_shortLine (op : Operation) (expect : Nat) (st : St)
    (rest : List WireReply) (hr : st.replies = WireReply.shortLine :: rest) :
    checkResponse op expect st = (false, setMetrics .ReadFailed op 0 (stAfterRead op false st rest)) := by
  simp [checkResponse, St.popReply, hr, readResponse, stAfterRead, St.emit]

theorem checkResponse_eq_nonNumeric (op : Operation) (expect : Nat) (st : St)
    (rest : List WireReply) (hr : st.replies = WireReply.nonNumeric :: rest) :
    checkResponse op expect st = (false, setMetrics .ReadFailed op 0 (stAfterRead op false st rest)) := by
  simp [checkResponse, St.popReply, hr, readResponse, stAfterRead, St.emit]

theorem checkResponse_eq_lowCode (op : Operation) (expect n : Nat) (st : St)
    (rest : List WireReply) (hr : st.replies = WireReply.lowCode n :: rest) :
    checkResponse op expect st = (false, setMetrics .ReadFailed op n (stAfterRead op false st rest)) := by
  simp [checkResponse, St.popReply, hr, readResponse, stAfterRead, St.emit]

theorem setMetrics_tags_result (r : ResultType) (op : Operation) (c : Nat) (st : St) :
    findKV (setMetrics r op c st).tags "result" = some (resultTag r) := by
  simp only [setMetrics, setResult]
  split <;> exact findKV_insertKV_self _ _ _

theorem setMetrics_fields_result (r : ResultType) (op : Operation) (c : Nat) (st : St) :
    findKV (setMetrics r op c st).fields "result_code" = some (FieldValue.vResult r.toNat) := by
  simp only [setMetrics, setResult]
  split
  · rw [findKV_insertKV_ne _ _ _ _ (fun h => opCode_ne_result_code op h)]
    exact findKV_insertKV_self _ _ _
  · exact findKV_insertKV_self _ _ _

theorem setMetrics_fields_opcode_pos (r : ResultType) (op : Operation) (c : Nat) (st : St)
    (h : c ≠ 0) :
    findKV (setMetrics r op c st).fields (opName op ++ "_code") = some (FieldValue.vCode c) := by
  simp only [setMetrics, setResult, if_pos h]
  exact findKV_insertKV_self _ _ _

theorem setMetrics_fields_opcode_zero (r : ResultType) (op : Operation) (st : St) :
    findKV (setMetrics r op 0 st).fields (opName op ++ "_code")
      = findKV st.fields (opName op ++ "_code") := by
  simp only [setMetrics, setResult, ne_eq, not_true_eq_false, if_neg, ite_false]
  exact findKV_insertKV_ne _ _ _ _ (fun h => opCode_ne_result_code op h.symm)

/-- C5 amended: for one response read, a well-formed reply whose nonzero
    code differs from the expected code gives string_mismatch (result
    code 4) and records the observed code; a timeout or an unparsable
    reply carrying code 0 (EOF/reset, short line, non-numeric code) gives
    timeout resp. read_failed and leaves the step's code field untouched;
    but a malformed line whose leading three bytes parse to a nonzero
    number below 100 gives read_failed and still records that number. -/
theorem checkResponse_code_recording (op : Operation) (expect : Nat) (st : St)
    (r : WireReply) (rest : List WireReply) (hr : st.replies = r :: rest) :
    (∀ n, r = WireReply.code n → goMismatch expect n = true → n ≠ 0 →
      (checkResponse op expect st).1 = false ∧
      findKV (checkResponse op expect st).2.tags "result" = some "string_mismatch" ∧
      findKV (checkResponse op expect st).2.fields "result_code" = some (FieldValue.vResult 4) ∧
      findKV (checkResponse op expect st).2.fields (opName op ++ "_code") = some (FieldValue.vCode n)) ∧
    (r = WireReply.timeout →
      (checkResponse op expect st).1 = false ∧
      findKV (checkResponse op expect st).2.tags "result" = some "timeout" ∧
      findKV (checkResponse op expect st).2.fields (opName op ++ "_code")
        = findKV st.fields (opName op ++ "_code")) ∧
    ((r = WireReply.ioError ∨ r = WireReply.shortLine ∨ r = WireReply.nonNumeric) →
      (checkResponse op expect st).1 = false ∧
      findKV (checkResponse op expect st).2.tags "result" = some "read_failed" ∧
      findKV (checkResponse op expect st).2.fields (opName op ++ "_code")
        = findKV st.fields (opName op ++ "_code")) ∧
    (∀ n, r = WireReply.lowCode n → n ≠ 0 →
      (checkResponse op expect st).1 = false ∧
      findKV (checkResponse op expect st).2.tags "result" = some "read_failed" ∧
      findKV (checkResponse op expect st).2.fields (opName op ++ "_code") = some (FieldValue.vCode n)) := by
  refine ⟨?_, ?_, ?_, ?_⟩
  · rintro n rfl hmis hn
    rw [checkResponse_eq_mismatch op expect n st rest hr hmis hn]
    exact ⟨rfl, setMetrics_tags_result _ _ _ _, setMetrics_fields_result _ _ _ _,
      setMetrics_fields_opcode_pos _ _ _ _ hn⟩
  · rintro rfl
    rw [checkResponse_eq_timeout op expect st rest hr]
    exact ⟨rfl, setMetrics_tags_result _ _ _ _, setMetrics_fields_opcode_zero _ _ _⟩
  · rintro (rfl | rfl | rfl)
    · rw [checkResponse_eq_ioError op expect st rest hr]
      exact ⟨rfl, setMetrics_tags_result _ _ _ _, setMetrics_fields_opcode_zero _ _ _⟩
    · rw [checkResponse_eq_shortLine op expect st rest hr]
      exact ⟨rfl, setMetrics_tags_result _ _ _ _, setMetrics_fields_opcode_zero _ _ _⟩
    · rw [checkResponse_eq_nonNumeric op expect st rest hr]
      exact ⟨rfl, setMetrics_tags_result _ _ _ _, setMetrics_fields_opcode_zero _ _ _⟩
  · rintro n rfl hn
    rw [checkResponse_eq_lowCode op expect n st rest hr]
    exact ⟨rfl, setMetrics_tags_result _ _ _ _, setMetrics_fields_opcode_pos _ _ _ _ hn⟩

/-- C5 amended, witness: the characterization applied to a concrete 421
    reply to the EHLO step expecting 250. -/
theorem checkResponse_code_recording_witness :
    (checkResponse Operation.Ehlo 250 ⟨[], [], [], [], [WireReply.code 421]⟩).1 = false ∧
    findKV (checkResponse Operation.Ehlo 250 ⟨[], [], [], [], [WireReply.code 421]⟩).2.tags "result"
      = some "string_mismatch" ∧
    findKV (checkResponse Operation.Ehlo 250 ⟨[], [], [], [], [WireReply.code 421]⟩).2.fields "ehlo_code"
      = some (FieldValue.vCode 421) := by
  have h := (checkResponse_code_recording Operation.Ehlo 250
    ⟨[], [], [], [], [WireReply.code 421]⟩ (WireReply.code 421) [] rfl).1 421 rfl (by decide) (by decide)
  exact ⟨h.1, h.2.1, h.2.2.2⟩

theorem Gather_eq (smtp : Smtp) (srv : Server) :
    Gather smtp srv =
      match splitHostPort smtp.Address with
      | .error e => .error e
      | .ok (host, port) =>
        if port = "" then .error "Bad port"
        else
          let cfg : Smtp := { smtp with
            Timeout := if smtp.Timeout = 0 then nsSecond else smtp.Timeout,
            ReadTimeout := if smtp.ReadTimeout = 0 then 10 * nsSecond else smtp.ReadTimeout }
          let cfg := if host = "" then { cfg with Address := "localhost:" ++ port } else cfg
          let st := SMTPGather cfg srv
          .ok (cfg, ⟨"smtp", st.fields,
            st.tags.foldl (fun acc kv => insertKV acc kv.1 kv.2) [("server", host), ("port", port)]⟩) := by
  obtain ⟨A, T, RT, E, F, Tt, B, S, TC⟩ := smtp
  by_cases hT : T = 0 <;> by_cases hR : RT = 0 <;>
    simp only [Gather, hT, hR, if_true, if_false, ite_true, ite_false]

/-- C8: Gather returns an error exactly when the address fails to split
    into host and port (the split's own error) or the port is empty
    ("Bad port"); in every other case, whatever the server does, it
    returns one `smtp` measurement, with the connect timeout defaulted to
    1s and the read timeout to 10s when unset. -/
theorem gather_error_iff (smtp : Smtp) (srv : Server) :
    (match splitHostPort smtp.Address with
    | .error e => Gather smtp srv = Except.error e
    | .ok (host, port) =>
      if port = "" then Gather smtp srv = Except.error "Bad port"
      else ∃ cfg m, Gather smtp srv = Except.ok (cfg, m) ∧ m.name = "smtp" ∧
        cfg.Timeout = (if smtp.Timeout = 0 then nsSecond else smtp.Timeout) ∧
        cfg.ReadTimeout = (if smtp.ReadTimeout = 0 then 10 * nsSecond else smtp.ReadTimeout) ∧
        cfg.Address = (if host = "" then "localhost:" ++ port else smtp.Address)) := by
  rw [Gather_eq]
  rcases hsp : splitHostPort smtp.Address with e | ⟨host, port⟩
  · rfl
  · dsimp only
    by_cases hport : port = ""
    · rw [if_pos hport, if_pos hport]
    · rw [if_neg hport, if_neg hport]
      by_cases hhost : host = ""
      · rw [if_pos hhost]
        exact ⟨_, _, rfl, rfl, rfl, rfl, by rw [if_pos hhost]⟩
      · rw [if_neg hhost]
        exact ⟨_, _, rfl, rfl, rfl, rfl, by rw [if_neg hhost]⟩

/-- C8 witness: a healthy run at address "127.0.0.1:2004" with unset
    timeouts produces an ok result with defaulted timeouts, and the
    address ":" produces the "Bad port" error. -/
theorem gather_error_iff_witness :
    (∃ cfg m, Gather ⟨"127.0.0.1:2004", 0, 0, "", "", "", "", false, true⟩ srvMinimalOk
        = Except.ok (cfg, m) ∧ m.name = "smtp" ∧
      cfg.Timeout = nsSecond ∧ cfg.ReadTimeout = 10 * nsSecond ∧
      cfg.Address = "127.0.0.1:2004") ∧
    Gather ⟨":", 0, 0, "", "", "", "", false, true⟩ srvMinimalOk = Except.error "Bad port" := by
  constructor
  · have h := gather_error_iff ⟨"127.0.0.1:2004", 0, 0, "", "", "", "", false, true⟩ srvMinimalOk
    rw [show splitHostPort "127.0.0.1:2004" = .ok ("127.0.0.1", "2004") from rfl] at h
    dsimp only at h
    have hp : ¬("2004" : String) = "" := by decide
    rw [if_neg hp] at h
    obtain ⟨cfg, m, hg, hn, hT, hR, hA⟩ := h
    exact ⟨cfg, m, hg, hn, hT.trans (if_pos rfl), hR.trans (if_pos rfl),
      hA.trans (if_neg (by decide))⟩
  · have h := gather_error_iff ⟨":", 0, 0, "", "", "", "", false, true⟩ srvMinimalOk
    rw [show splitHostPort ":" = .ok ("", "") from rfl] at h
    dsimp only at h
    rw [if_pos rfl] at h
    exact h

theorem checkResponse_eq_nil (op : Operation) (expect : Nat) (st : St)
    (hr : st.replies = []) :
    checkResponse op expect st = (false, setMetrics .ReadFailed op 0 (stAfterRead op false st [])) := by
  cases st
  subst hr
  simp [checkResponse, St.popReply, readResponse, stAfterRead, St.emit]

theorem opCode_ne_connect_time (op : Operation) : opName op ++ "_code" ≠ "connect_time" := by
  cases op <;> decide

theorem opCode_ne_total_time (op : Operation) : opName op ++ "_code" ≠ "total_time" := by
  cases op <;> decide

/-- C4 amended: in every session that reaches the STARTTLS step (dial ok,
    all writes accepted, matching greeting, and a matching EHLO exchange
    when one is configured) with STARTTLS requested but a TLS client
    configuration that fails to build, the session is classified
    tls_config_error with result_code 5 and attempts no response read
    beyond the greeting (and EHLO) — but a QUIT command is still written
    to the connection as cleanup before the session ends. -/
theorem goMismatch_false_iff (e n : Nat) (h1 : 100 ≤ e) (h2 : e < 1000) :
    goMismatch e n = false ↔ n = e := by
  simp only [goMismatch, decide_eq_false_iff_not]
  constructor
  · intro h
    by_contra hne
    exact h (Or.inr (Or.inr ⟨h1, h2, hne⟩))
  · rintro rfl
    intro hcon
    rcases hcon with ⟨ha, hb, _⟩ | ⟨ha, hb, _⟩ | ⟨_, _, hc⟩ <;> omega

theorem tls_config_error_hard_stop_with_quit (config : Smtp) (srv : Server)
    (hS : config.StartTls = true) (hT : config.TlsConfigOk = false)
    (hd : srv.dial = DialResult.ok) (hw : srv.writes = [])
    (hgr : ∃ n rest, srv.replies = WireReply.code n :: rest ∧ goMismatch 220 n = false ∧
      (config.Ehlo = "" ∨
        ∃ m rest2, rest = WireReply.code m :: rest2 ∧ goMismatch 250 m = false)) :
    findKV (SMTPGather config srv).tags "result" = some "tls_config_error" ∧
    findKV (SMTPGather config srv).fields "result_code" = some (FieldValue.vResult 5) ∧
    Event.cmd "QUIT" true ∈ (SMTPGather config srv).trace ∧
    readOps (SMTPGather config srv).trace
      = (if config.Ehlo = "" then [Operation.Connect] else [Operation.Connect, Operation.Ehlo]) := by
  obtain ⟨A, T, RT, E, F, Tt, B, S, TC⟩ := config
  obtain ⟨d, ws, rs⟩ := srv
  dsimp only at hS hT hd hw ⊢
  subst hS hT hd hw
  obtain ⟨n, rest, hr, hn, hrest⟩ := hgr
  dsimp only at hr
  subst hr
  have hn220 : n = 220 := (goMismatch_false_iff 220 n (by norm_num) (by norm_num)).1 hn
  subst hn220
  rcases hrest with hE | ⟨m, rest2, hm, hmm⟩
  · subst hE
    simp [SMTPGather, gate, runStartTls, textCmd, performCommand, checkResponse, St.popReply,
      St.popWrite, readResponse, goMismatch, opName, resultTag, ResultType.toNat, setMetrics, setResult, latchField, St.emit,
      readOps, readEvents, findKV, insertKV]
  · subst hm
    have hm250 : m = 250 := (goMismatch_false_iff 250 m (by norm_num) (by norm_num)).1 hmm
    subst hm250
    by_cases hE : E = ""
    · subst hE
      simp [SMTPGather, gate, runStartTls, textCmd, performCommand, checkResponse, St.popReply,
        St.popWrite, readResponse, goMismatch, opName, resultTag, ResultType.toNat, setMetrics, setResult, latchField, St.emit,
        readOps, readEvents, findKV, insertKV]
    · simp [SMTPGather, gate, runStartTls, textCmd, performCommand, checkResponse, St.popReply,
        St.popWrite, readResponse, goMismatch, opName, hE, resultTag, ResultType.toNat, setMetrics, setResult, latchField,
        St.emit, readOps, readEvents, findKV, insertKV]

theorem popWrite_eq (st : St) :
    st.popWrite = (st.writes.headD true, { st with writes := st.writes.tail }) := by
  obtain ⟨f, t, tr, ws, rs⟩ := st
  cases ws <;> rfl

theorem popReply_eq (st : St) :
    st.popReply = (st.replies.headD WireReply.ioError, { st with replies := st.replies.tail }) := by
  obtain ⟨f, t, tr, ws, rs⟩ := st
  cases rs <;> rfl

theorem setMetrics_trace (r : ResultType) (op : Operation) (c : Nat) (st : St) :
    (setMetrics r op c st).trace = st.trace := by
  simp only [setMetrics, setResult]
  split <;> rfl

theorem setMetrics_writes (r : ResultType) (op : Operation) (c : Nat) (st : St) :
    (setMetrics r op c st).writes = st.writes := by
  simp only [setMetrics, setResult]
  split <;> rfl

theorem setMetrics_replies (r : ResultType) (op : Operation) (c : Nat) (st : St) :
    (setMetrics r op c st).replies = st.replies := by
  simp only [setMetrics, setResult]
  split <;> rfl

theorem setMetrics_tags (r : ResultType) (op : Operation) (c : Nat) (st : St) :
    (setMetrics r op c st).tags = insertKV st.tags "result" (resultTag r) := by
  simp only [setMetrics, setResult]
  split <;> rfl

theorem setMetrics_fields_other (r : ResultType) (op : Operation) (c : Nat) (st : St)
    (k : String) (h1 : k ≠ "result_code") (h2 : k ≠ opName op ++ "_code") :
    findKV (setMetrics r op c st).fields k = findKV st.fields k := by
  simp only [setMetrics, setResult]
  split
  · rw [findKV_insertKV_ne _ _ _ _ (fun h => h2 h.symm),
      findKV_insertKV_ne _ _ _ _ (fun h => h1 h.symm)]
  · rw [findKV_insertKV_ne _ _ _ _ (fun h => h1 h.symm)]

theorem checkResponse_eq_mismatch_zero (op : Operation) (expect : Nat) (st : St)
    (rest : List WireReply) (hr : st.replies = WireReply.code 0 :: rest)
    (h : goMismatch expect 0 = true) :
    checkResponse op expect st
      = (false, setMetrics .ReadFailed op 0 (stAfterRead op false st rest)) := by
  simp [checkResponse, St.popReply, hr, readResponse, h, stAfterRead, St.emit]

/-- Every outcome of one `checkResponse` call has the same shape: some
    classification and code handed to `setMetrics` over the state with the
    head reply consumed and the read event emitted, with the returned
    boolean equal to the emitted event's flag. -/
theorem checkResponse_cases (op : Operation) (expect : Nat) (st : St) :
    ∃ b r c, checkResponse op expect st
      = (b, setMetrics r op c (stAfterRead op b st st.replies.tail)) := by
  cases hr : st.replies with
  | nil =>
    refine ⟨false, .ReadFailed, 0, ?_⟩
    rw [checkResponse_eq_nil op expect st hr]
    rfl
  | cons r0 rest =>
    simp only [List.tail_cons]
    cases r0 with
    | timeout => exact ⟨false, .Timeout, 0, checkResponse_eq_timeout op expect st rest hr⟩
    | ioError => exact ⟨false, .ReadFailed, 0, checkResponse_eq_ioError op expect st rest hr⟩
    | shortLine => exact ⟨false, .ReadFailed, 0, checkResponse_eq_shortLine op expect st rest hr⟩
    | nonNumeric => exact ⟨false, .ReadFailed, 0, checkResponse_eq_nonNumeric op expect st rest hr⟩
    | lowCode n => exact ⟨false, .ReadFailed, n, checkResponse_eq_lowCode op expect n st rest hr⟩
    | code n =>
      by_cases hm : goMismatch expect n = true
      · by_cases hn : n = 0
        · subst hn
          exact ⟨false, .ReadFailed, 0, checkResponse_eq_mismatch_zero op expect st rest hr hm⟩
        · exact ⟨false, .StringMismatch, n, checkResponse_eq_mismatch op expect n st rest hr hm hn⟩
      · exact ⟨true, .Success, n,
          checkResponse_eq_match op expect n st rest hr (by simpa using hm)⟩

theorem connect_time_ne_result_code : ("connect_time" : String) ≠ "result_code" := by decide

theorem runnerSpec_performCommand (op : Operation) (msg : String) (exp : Nat) :
    RunnerSpec [op] (performCommand op msg exp) := by
  intro st
  have hpc : performCommand op msg exp st
      = (if st.writes.headD true then checkResponse op exp (stAfterCmd msg st)
        else (false, setResult .CommandFailed (stAfterCmd msg st))) := by
    simp only [performCommand, popWrite_eq, St.emit, stAfterCmd]
  rw [hpc]
  cases hw : st.writes.headD true
  · rw [if_neg (by simp)]
    refine ⟨[Event.cmd msg false], ?_, by simp, ?_, ?_, ?_⟩
    · simp only [setResult, stAfterCmd]
      rw [hw]
    · simp only [setResult, stAfterCmd]
      rw [findKV_insertKV_ne _ _ _ _ (fun h => connect_time_ne_result_code h.symm)]
    · exact ⟨.CommandFailed, findKV_insertKV_self _ _ _⟩
    · unfold ReadsRel
      rw [if_neg (by simp)]
      exact ⟨[], [op], rfl, Or.inl (by simp [readEvents])⟩
  · rw [if_pos rfl]
    obtain ⟨b, r, c, hcr⟩ := checkResponse_cases op exp (stAfterCmd msg st)
    rw [hcr]
    refine ⟨[Event.cmd msg true, Event.read op b], ?_, by simp, ?_, ?_, ?_⟩
    · rw [setMetrics_trace]
      simp only [stAfterRead, stAfterCmd]
      rw [hw]
      simp
    · rw [setMetrics_fields_other _ _ _ _ _ connect_time_ne_result_code
        (fun h => opCode_ne_connect_time op h.symm)]
      simp only [stAfterRead, stAfterCmd]
    · rw [setMetrics_tags]
      exact ⟨r, findKV_insertKV_self _ _ _⟩
    · cases b
      · unfold ReadsRel
        rw [if_neg (by simp)]
        exact ⟨[], [op], rfl, Or.inr ⟨op, [], rfl, by simp [readEvents]⟩⟩
      · unfold ReadsRel
        rw [if_pos rfl]
        simp [readEvents]

theorem readEvents_append (a b : List Event) :
    readEvents (a ++ b) = readEvents a ++ readEvents b := by
  simp [readEvents, List.filterMap_append]

theorem ReadsRel_fail_extend (P Q : List Operation) (rs : List (Operation × Bool))
    (h : ReadsRel P rs false) : ReadsRel (P ++ Q) rs false := by
  unfold ReadsRel at h ⊢
  rw [if_neg (by simp)] at h ⊢
  obtain ⟨e1, e2, hP, hor⟩ := h
  refine ⟨e1, e2 ++ Q, by rw [hP, List.append_assoc], ?_⟩
  rcases hor with hrs | ⟨op, e3, he, hrs⟩
  · exact Or.inl hrs
  · exact Or.inr ⟨op, e3 ++ Q, by rw [he]; rfl, hrs⟩

theorem ReadsRel_prepend_ok (P Q : List Operation) (rs : List (Operation × Bool)) (b : Bool)
    (h : ReadsRel Q rs b) :
    ReadsRel (P ++ Q) (P.map (fun op => (op, true)) ++ rs) b := by
  unfold ReadsRel at h ⊢
  cases b
  · rw [if_neg (by simp)] at h ⊢
    obtain ⟨e1, e2, hQ, hor⟩ := h
    refine ⟨P ++ e1, e2, by rw [hQ, List.append_assoc], ?_⟩
    rcases hor with hrs | ⟨op, e3, he, hrs⟩
    · exact Or.inl (by rw [hrs, List.map_append])
    · exact Or.inr ⟨op, e3, he, by rw [hrs, List.map_append, List.append_assoc]⟩
  · rw [if_pos rfl] at h ⊢
    rw [h, List.map_append]

theorem textCmd_eq (msg : String) (st : St) : textCmd msg st = stAfterCmd msg st := by
  simp only [textCmd, popWrite_eq, St.emit, stAfterCmd]

theorem runnerSpec_runStartTls (config : Smtp) :
    RunnerSpec [Operation.StartTls] (runStartTls config) := by
  intro st
  cases hT : config.TlsConfigOk
  · have hrs : runStartTls config st
        = (false, setResult .TlsConfigError (stAfterCmd "QUIT" st)) := by
      simp only [runStartTls, hT, textCmd_eq, Bool.not_false, if_pos]
    rw [hrs]
    refine ⟨[Event.cmd "QUIT" (st.writes.headD true)], ?_, by simp, ?_, ?_, ?_⟩
    · simp only [setResult, stAfterCmd]
    · simp only [setResult, stAfterCmd]
      rw [findKV_insertKV_ne _ _ _ _ (fun h => connect_time_ne_result_code h.symm)]
    · exact ⟨.TlsConfigError, findKV_insertKV_self _ _ _⟩
    · unfold ReadsRel
      rw [if_neg (by simp)]
      exact ⟨[], [Operation.StartTls], rfl, Or.inl (by simp [readEvents])⟩
  · have hrs : runStartTls config st = performCommand .StartTls "STARTTLS" 220 st := by
      simp only [runStartTls, hT, Bool.not_true]
      rfl
    rw [hrs]
    exact runnerSpec_performCommand .StartTls "STARTTLS" 220 st

theorem runnerSpec_runBody (config : Smtp) :
    RunnerSpec [Operation.Data, Operation.Body] (runBody config) := by
  intro st
  obtain ⟨d1, htr1, hnl1, hcf1, htag1, hrel1⟩ := runnerSpec_performCommand .Data "DATA" 354 st
  rcases hd1 : performCommand .Data "DATA" 354 st with ⟨s1, st1⟩
  rw [hd1] at htr1 hcf1 htag1 hrel1
  dsimp only at htr1 hcf1 htag1 hrel1
  have hrb : runBody config st
      = if s1 then performCommand .Body (config.Body ++ "\r\n.\r\n") 250 st1 else (s1, st1) := by
    simp only [runBody, hd1]
  cases s1
  · rw [hrb, if_neg (by simp)]
    exact ⟨d1, htr1, hnl1, hcf1, htag1,
      ReadsRel_fail_extend [Operation.Data] [Operation.Body] _ hrel1⟩
  · rw [hrb, if_pos rfl]
    have hds : readEvents d1 = [(Operation.Data, true)] := by
      unfold ReadsRel at hrel1
      rw [if_pos rfl] at hrel1
      simpa using hrel1
    obtain ⟨d2, htr2, hnl2, hcf2, htag2, hrel2⟩ :=
      runnerSpec_performCommand .Body (config.Body ++ "\r\n.\r\n") 250 st1
    refine ⟨d1 ++ d2, ?_, ?_, ?_, htag2, ?_⟩
    · rw [htr2, htr1, List.append_assoc]
    · intro s hs
      rcases List.mem_append.1 hs with h | h
      · exact hnl1 s h
      · exact hnl2 s h
    · rw [hcf2, hcf1]
    · rw [readEvents_append, hds]
      exact ReadsRel_prepend_ok [Operation.Data] [Operation.Body] _ _ hrel2

theorem chainInv_gate {E : List Operation} {run : St → Bool × St} (hrun : RunnerSpec E run)
    (cond : Bool) {stL : St} {P : List Operation} {acc : Bool × St}
    (h : ChainInv stL P acc) :
    ChainInv stL (P ++ (if cond then E else [])) (gate cond run acc) := by
  obtain ⟨ds, htr, hnl, hcf, htag, hrel⟩ := h
  rcases Bool.eq_false_or_eq_true (acc.1 && cond) with hgo | hgo
  · have ha : acc.1 = true := ((Bool.and_eq_true _ _).mp hgo).1
    have hc : cond = true := ((Bool.and_eq_true _ _).mp hgo).2
    have hga : gate cond run acc = run acc.2 := by
      unfold gate
      rw [hgo]
      rfl
    rw [hga, hc]
    obtain ⟨d2, htr2, hnl2, hcf2, htag2, hrel2⟩ := hrun acc.2
    refine ⟨ds ++ d2, ?_, ?_, ?_, htag2, ?_⟩
    · rw [htr2, htr, List.append_assoc]
    · intro s hs
      rcases List.mem_append.1 hs with hm | hm
      · exact hnl s hm
      · exact hnl2 s hm
    · rw [hcf2, hcf]
    · rw [readEvents_append, if_pos rfl]
      rw [ha] at hrel
      unfold ReadsRel at hrel
      rw [if_pos rfl] at hrel
      rw [hrel]
      exact ReadsRel_prepend_ok P E _ _ hrel2
  · have hga : gate cond run acc = acc := by
      unfold gate
      rw [hgo]
      rfl
    rw [hga]
    rcases Bool.eq_false_or_eq_true acc.1 with hacc | hacc
    · have hcond : cond = false := by
        rw [hacc] at hgo
        simpa using hgo
      rw [hcond]
      refine ⟨ds, htr, hnl, hcf, htag, ?_⟩
      rw [if_neg (by simp), List.append_nil]
      exact hrel
    · rw [hacc] at hrel
      refine ⟨ds, htr, hnl, hcf, htag, ?_⟩
      rw [hacc]
      exact ReadsRel_fail_extend P _ _ hrel

theorem plannedSteps_eq_cons (config : Smtp) :
    plannedSteps config = Operation.Connect :: plannedTail config := by
  simp [plannedSteps, plannedTail, List.append_assoc]

theorem SMTPGather_ok_eq (config : Smtp) (ws : List Bool) (rs : List WireReply) :
    SMTPGather config ⟨DialResult.ok, ws, rs⟩
      = (match checkResponse .Connect 220 ⟨[], [], [Event.dial true], ws, rs⟩ with
        | (success, st) =>
          let stL := latchField "connect_time" st
          if !success then stL
          else
            latchField "total_time"
              (gate true (performCommand .Quit "QUIT" 221)
                (gate (config.Body != "") (runBody config)
                  (gate (config.To != "") (performCommand .RcptTo ("RCPT TO:" ++ config.To) 250)
                    (gate (config.From != "") (performCommand .MailFrom ("MAIL FROM:" ++ config.From) 250)
                      (gate config.StartTls (runStartTls config)
                        (gate (config.Ehlo != "") (performCommand .Ehlo ("EHLO " ++ config.Ehlo) 250)
                          (true, stL))))))).2) := rfl

theorem total_time_ne_connect_time : ("total_time" : String) ≠ "connect_time" := by decide

/-- Master description of every session whose dial succeeded: the trace
    starts with the dial, the greeting read and the connect-time latch;
    every later latch is the total-time latch; `connect_time` is recorded;
    a `result` tag is present; and either the greeting failed and nothing
    else happened, or the remaining reads realize a prefix of the planned
    steps in order. -/
theorem SMTPGather_master (config : Smtp) (srv : Server) (hd : srv.dial = DialResult.ok) :
    ∃ b ds,
      (SMTPGather config srv).trace
        = Event.dial true :: Event.read Operation.Connect b :: Event.latch "connect_time" :: ds ∧
      (∀ s, Event.latch s ∈ ds → s = "total_time") ∧
      findKV (SMTPGather config srv).fields "connect_time" = some FieldValue.vTime ∧
      (∃ rt, findKV (SMTPGather config srv).tags "result" = some (resultTag rt)) ∧
      ((b = false ∧ ds = []) ∨
        (b = true ∧ ∃ bq, ReadsRel (plannedTail config) (readEvents ds) bq)) := by
  obtain ⟨d, ws, rs⟩ := srv
  dsimp only at hd
  subst hd
  rw [SMTPGather_ok_eq]
  obtain ⟨b, r, c, hcr⟩ := checkResponse_cases .Connect 220 ⟨[], [], [Event.dial true], ws, rs⟩
  rw [hcr]
  dsimp only
  set stM := setMetrics r .Connect c
    (stAfterRead .Connect b ⟨[], [], [Event.dial true], ws, rs⟩ rs.tail) with hstM
  have hMtrace : stM.trace = [Event.dial true, Event.read Operation.Connect b] := by
    rw [hstM, setMetrics_trace]
    rfl
  have hMtags : ∃ rt, findKV stM.tags "result" = some (resultTag rt) := by
    refine ⟨r, ?_⟩
    rw [hstM, setMetrics_tags]
    exact findKV_insertKV_self _ _ _
  set stL := latchField "connect_time" stM with hstL
  have hLtrace : stL.trace
      = [Event.dial true, Event.read Operation.Connect b, Event.latch "connect_time"] := by
    rw [hstL]
    simp only [latchField, St.emit]
    rw [hMtrace]
    rfl
  have hLfield : findKV stL.fields "connect_time" = some FieldValue.vTime := by
    rw [hstL]
    simp only [latchField, St.emit]
    exact findKV_insertKV_self _ _ _
  have hLtags : stL.tags = stM.tags := by
    rw [hstL]
    rfl
  cases b
  · rw [if_pos (by decide : (!false) = true)]
    refine ⟨false, [], ?_, by simp, hLfield, hLtags ▸ hMtags, Or.inl ⟨rfl, rfl⟩⟩
    rw [hLtrace]
  · rw [if_neg (by simp)]
    have hInit : ChainInv stL [] (true, stL) := by
      refine ⟨[], by simp, by simp, rfl, hLtags ▸ hMtags, ?_⟩
      unfold ReadsRel
      rw [if_pos rfl]
      simp [readEvents]
    have h1 := chainInv_gate (runnerSpec_performCommand .Ehlo ("EHLO " ++ config.Ehlo) 250)
      (config.Ehlo != "") hInit
    have h2 := chainInv_gate (runnerSpec_runStartTls config) config.StartTls h1
    have h3 := chainInv_gate (runnerSpec_performCommand .MailFrom ("MAIL FROM:" ++ config.From) 250)
      (config.From != "") h2
    have h4 := chainInv_gate (runnerSpec_performCommand .RcptTo ("RCPT TO:" ++ config.To) 250)
      (config.To != "") h3
    have h5 := chainInv_gate (runnerSpec_runBody config) (config.Body != "") h4
    have h6 := chainInv_gate (runnerSpec_performCommand .Quit "QUIT" 221) true h5
    obtain ⟨ds6, htr6, hnl6, hcf6, htag6, hrel6⟩ := h6
    refine ⟨true, ds6 ++ [Event.latch "total_time"], ?_, ?_, ?_, ?_, Or.inr ⟨rfl, ?_⟩⟩
    · simp only [latchField, St.emit]
      rw [htr6, hLtrace]
      simp
    · intro s hs
      rcases List.mem_append.1 hs with hm | hm
      · exact absurd hm (hnl6 s)
      · simpa using hm
    · simp only [latchField, St.emit]
      rw [findKV_insertKV_ne _ _ _ _ total_time_ne_connect_time, hcf6, hLfield]
    · simpa only [latchField, St.emit] using htag6
    · have hre : readEvents (ds6 ++ [Event.latch "total_time"]) = readEvents ds6 := by
        rw [readEvents_append]
        simp [readEvents]
      rw [hre]
      have hP : (((((([] : List Operation)
            ++ (if config.Ehlo != "" then [Operation.Ehlo] else []))
            ++ (if config.StartTls then [Operation.StartTls] else []))
            ++ (if config.From != "" then [Operation.MailFrom] else []))
            ++ (if config.To != "" then [Operation.RcptTo] else []))
            ++ (if config.Body != "" then [Operation.Data, Operation.Body] else []))
            ++ (if (true : Bool) then [Operation.Quit] else [])
          = plannedTail config := by
        simp [plannedTail, List.append_assoc]
      rw [← hP]
      exact ⟨_, hrel6⟩

/-- C3 amended: whenever the dial succeeds, `connect_time` is latched
    exactly once, immediately after the greeting read (on both the
    greeting-success and greeting-failure paths), and is present in the
    fields; when the dial fails, `connect_time` is never recorded. -/
theorem connect_time_latched_after_greeting (config : Smtp) (srv : Server) :
    (srv.dial = DialResult.ok →
      ∃ b rest, (SMTPGather config srv).trace
          = Event.dial true :: Event.read Operation.Connect b :: Event.latch "connect_time" :: rest ∧
        Event.latch "connect_time" ∉ rest ∧
        findKV (SMTPGather config srv).fields "connect_time" = some FieldValue.vTime) ∧
    (srv.dial ≠ DialResult.ok →
      findKV (SMTPGather config srv).fields "connect_time" = none) := by
  constructor
  · intro hd
    obtain ⟨b, ds, htr, hlat, hcf, _, _⟩ := SMTPGather_master config srv hd
    refine ⟨b, ds, htr, ?_, hcf⟩
    intro hmem
    exact absurd (hlat _ hmem) (by decide)
  · intro hd
    obtain ⟨d, ws, rs⟩ := srv
    dsimp only at hd
    cases d
    · exact absurd rfl hd
    · rfl
    · rfl

/-- C3 amended, witness: the latch facts at a healthy minimal session and
    the absence of connect_time on a refused connection. -/
theorem connect_time_latched_after_greeting_witness :
    findKV (SMTPGather cfgBase srvMinimalOk).fields "connect_time" = some FieldValue.vTime ∧
    findKV (SMTPGather cfgBase srvRefused).fields "connect_time" = none := by
  obtain ⟨b, rest, _, _, hcf⟩ :=
    (connect_time_latched_after_greeting cfgBase srvMinimalOk).1 rfl
  exact ⟨hcf, (connect_time_latched_after_greeting cfgBase srvRefused).2 (by decide)⟩

theorem resultTag_enum (rt : ResultType) :
    resultTag rt ∈ enumeratedTags ∨ resultTag rt = "" := by
  cases rt <;> decide

/-- C9 amended: the `result` tag emitted by every session is either one of
    the six enumerated classification strings or the empty string; the
    empty string occurs exactly for the CommandFailed classification,
    whose case is missing from the `setResult` switch. -/
theorem result_tag_enumerated_or_empty (config : Smtp) (srv : Server) :
    ∃ t, findKV (SMTPGather config srv).tags "result" = some t ∧
      (t ∈ enumeratedTags ∨ t = "") := by
  by_cases hd : srv.dial = DialResult.ok
  · obtain ⟨b, ds, _, _, _, ⟨rt, htag⟩, _⟩ := SMTPGather_master config srv hd
    exact ⟨resultTag rt, htag, resultTag_enum rt⟩
  · obtain ⟨d, ws, rs⟩ := srv
    dsimp only at hd
    cases d
    · exact absurd rfl hd
    · exact ⟨"timeout", rfl, by decide⟩
    · exact ⟨"connection_failed", rfl, by decide⟩

/-- The ordering part of the step machine: the steps read are always an
    in-order prefix of the planned steps, and every read except possibly
    the last one succeeded. -/
theorem map_fst_pair_true (l : List Operation) :
    List.map (Prod.fst ∘ fun op => (op, true)) l = l := by
  induction l with
  | nil => rfl
  | cons a t ih =>
    rw [List.map_cons, ih]
    rfl

theorem step_order_upto (config : Smtp) (srv : Server) :
    (∃ t, plannedSteps config = readOps (SMTPGather config srv).trace ++ t) ∧
    (∀ pr ∈ (readEvents (SMTPGather config srv).trace).dropLast, pr.2 = true) := by
  by_cases hd : srv.dial = DialResult.ok
  · obtain ⟨b, ds, htr, _, _, _, hdisj⟩ := SMTPGather_master config srv hd
    have hre : readEvents (SMTPGather config srv).trace
        = (Operation.Connect, b) :: readEvents ds := by
      rw [htr]
      simp [readEvents]
    have hro : readOps (SMTPGather config srv).trace
        = Operation.Connect :: (readEvents ds).map Prod.fst := by
      simp only [readOps]
      rw [hre]
      rfl
    rcases hdisj with ⟨hb, hds⟩ | ⟨hb, bq, hrel⟩
    · subst hb hds
      constructor
      · refine ⟨plannedTail config, ?_⟩
        rw [plannedSteps_eq_cons, hro]
        simp [readEvents]
      · rw [hre]
        simp [readEvents]
    · subst hb
      unfold ReadsRel at hrel
      rcases Bool.eq_false_or_eq_true bq with hbq | hbq
      · rw [hbq, if_pos rfl] at hrel
        constructor
        · refine ⟨[], ?_⟩
          rw [plannedSteps_eq_cons, hro, hrel, List.map_map, map_fst_pair_true]
          simp
        · rw [hre, hrel]
          intro pr hpr
          have hpr2 := List.dropLast_subset _ hpr
          rcases List.mem_cons.1 hpr2 with h | h
          · rw [h]
          · obtain ⟨op, _, hop⟩ := List.mem_map.1 h
            rw [← hop]
      · rw [hbq, if_neg (by simp)] at hrel
        obtain ⟨e1, e2, hP, hor⟩ := hrel
        rcases hor with hrs | ⟨op, e3, he2, hrs⟩
        · constructor
          · refine ⟨e2, ?_⟩
            rw [plannedSteps_eq_cons, hP, hro, hrs, List.map_map, map_fst_pair_true]
            simp
          · rw [hre, hrs]
            intro pr hpr
            have hpr2 := List.dropLast_subset _ hpr
            rcases List.mem_cons.1 hpr2 with h | h
            · rw [h]
            · obtain ⟨o, _, hop⟩ := List.mem_map.1 h
              rw [← hop]
        · constructor
          · refine ⟨e3, ?_⟩
            rw [plannedSteps_eq_cons, hP, he2, hro, hrs, List.map_append, List.map_map,
              map_fst_pair_true]
            simp [List.append_assoc]
          · rw [hre, hrs]
            intro pr hpr
            rw [show ((Operation.Connect, true) :: (e1.map (fun op => (op, true)) ++ [(op, false)]))
                = ((Operation.Connect, true) :: e1.map (fun op => (op, true))) ++ [(op, false)]
              from by simp] at hpr
            rw [List.dropLast_concat] at hpr
            rcases List.mem_cons.1 hpr with h | h
            · rw [h]
            · obtain ⟨o, _, hop⟩ := List.mem_map.1 h
              rw [← hop]
  · obtain ⟨d, ws, rs⟩ := srv
    dsimp only at hd
    cases d
    · exact absurd rfl hd
    · exact ⟨⟨plannedSteps config, rfl⟩,
        by intro pr hpr; simp [SMTPGather, setResult, St.emit, readEvents] at hpr⟩
    · exact ⟨⟨plannedSteps config, rfl⟩,
        by intro pr hpr; simp [SMTPGather, setResult, St.emit, readEvents] at hpr⟩

theorem goodReplies_append (a b : List Operation) :
    goodReplies (a ++ b) = goodReplies a ++ goodReplies b := by
  simp [goodReplies]

theorem goodRun_performCommand (op : Operation) (msg : String) (exp : Nat)
    (hexp : goMismatch exp (expectedCode op) = false) :
    GoodRun [op] (performCommand op msg exp) := by
  intro st R hw hr
  have hpc : performCommand op msg exp st = checkResponse op exp (stAfterCmd msg st) := by
    simp only [performCommand, popWrite_eq, St.emit, stAfterCmd, hw]
    rfl
  rw [hpc]
  have hrep : (stAfterCmd msg st).replies = WireReply.code (expectedCode op) :: R := by
    simp [stAfterCmd, hr, goodReplies]
  rw [checkResponse_eq_match op exp (expectedCode op) (stAfterCmd msg st) R hrep hexp]
  refine ⟨rfl, ?_, ?_, ⟨[Event.cmd msg (st.writes.headD true), Event.read op true], ?_, ?_⟩⟩
  · rw [setMetrics_writes]
    simp [stAfterRead, stAfterCmd, hw]
  · rw [setMetrics_replies]
    simp [stAfterRead]
  · rw [setMetrics_trace]
    simp [stAfterRead, stAfterCmd, List.append_assoc]
  · simp [readEvents]

theorem goodRun_runStartTls (config : Smtp) (hT : config.TlsConfigOk = true) :
    GoodRun [Operation.StartTls] (runStartTls config) := by
  intro st R hw hr
  have hrs : runStartTls config st = performCommand .StartTls "STARTTLS" 220 st := by
    simp only [runStartTls, hT, Bool.not_true]
    rfl
  rw [hrs]
  exact goodRun_performCommand .StartTls "STARTTLS" 220 (by decide) st R hw hr

theorem goodRun_runBody (config : Smtp) :
    GoodRun [Operation.Data, Operation.Body] (runBody config) := by
  intro st R hw hr
  have h1 := goodRun_performCommand .Data "DATA" 354 (by decide) st
    (goodReplies [Operation.Body] ++ R) hw (by simpa [goodReplies] using hr)
  rcases hd1 : performCommand .Data "DATA" 354 st with ⟨s1, st1⟩
  rw [hd1] at h1
  dsimp only at h1
  obtain ⟨hs1, hw1, hr1, dA, htrA, hreA⟩ := h1
  subst hs1
  have hrb : runBody config st = performCommand .Body (config.Body ++ "\r\n.\r\n") 250 st1 := by
    simp only [runBody, hd1]
    rw [if_pos trivial]
  rw [hrb]
  have h2 := goodRun_performCommand .Body (config.Body ++ "\r\n.\r\n") 250 (by decide) st1 R hw1
    (by rw [hr1])
  obtain ⟨hs2, hw2, hr2, dB, htrB, hreB⟩ := h2
  refine ⟨hs2, hw2, hr2, ⟨dA ++ dB, ?_, ?_⟩⟩
  · rw [htrB, htrA, List.append_assoc]
  · rw [readEvents_append, hreA, hreB]
    rfl

theorem goodRun_gate {E : List Operation} {run : St → Bool × St} (h : GoodRun E run)
    (cond : Bool) (acc : Bool × St) (R : List WireReply)
    (ha : acc.1 = true) (hw : acc.2.writes = [])
    (hr : acc.2.replies = goodReplies (if cond then E else []) ++ R) :
    (gate cond run acc).1 = true ∧ (gate cond run acc).2.writes = [] ∧
    (gate cond run acc).2.replies = R ∧
    ∃ d, (gate cond run acc).2.trace = acc.2.trace ++ d ∧
      readEvents d = (if cond then E else []).map (fun op => (op, true)) := by
  cases cond
  · have hg : gate false run acc = acc := by
      unfold gate
      rw [ha]
      rfl
    rw [hg]
    refine ⟨ha, hw, ?_, ⟨[], by simp, by simp [readEvents]⟩⟩
    simpa [goodReplies] using hr
  · have hg : gate true run acc = run acc.2 := by
      unfold gate
      rw [ha]
      rfl
    rw [hg]
    have hres := h acc.2 R hw (by simpa using hr)
    obtain ⟨h1, h2, h3, d, h4, h5⟩ := hres
    exact ⟨h1, h2, h3, ⟨d, h4, by simpa using h5⟩⟩

/-- On a server scripted to match every planned step (dial ok, all writes
    accepted, TLS configuration fine when requested), the session reads
    exactly the planned steps, in order, all successfully. -/
theorem step_order_complete (config : Smtp) (srv : Server)
    (hdial : srv.dial = DialResult.ok) (hwr : srv.writes = [])
    (hT : config.TlsConfigOk = true)
    (hrep : srv.replies = goodReplies (plannedSteps config)) :
    readEvents (SMTPGather config srv).trace
      = (plannedSteps config).map (fun op => (op, true)) := by
  obtain ⟨d, ws, rs⟩ := srv
  dsimp only at hdial hwr hrep
  subst hdial hwr hrep
  rw [SMTPGather_ok_eq]
  have hgr : (⟨[], [], [Event.dial true], [], goodReplies (plannedSteps config)⟩ : St).replies
      = WireReply.code 220 :: goodReplies (plannedTail config) := by
    rw [show (⟨[], [], [Event.dial true], [], goodReplies (plannedSteps config)⟩ : St).replies
        = goodReplies (plannedSteps config) from rfl, plannedSteps_eq_cons]
    simp [goodReplies, expectedCode]
  rw [checkResponse_eq_match .Connect 220 220 _ (goodReplies (plannedTail config)) hgr (by decide)]
  dsimp only
  rw [if_neg (by simp)]
  set stM := setMetrics .Success .Connect 220
    (stAfterRead .Connect true ⟨[], [], [Event.dial true], [], goodReplies (plannedSteps config)⟩
      (goodReplies (plannedTail config))) with hstM
  set stL := latchField "connect_time" stM with hstL
  have hLtr : stL.trace
      = [Event.dial true, Event.read Operation.Connect true, Event.latch "connect_time"] := by
    rw [hstL]
    simp only [latchField, St.emit]
    rw [hstM, setMetrics_trace]
    rfl
  have hLw : stL.writes = [] := by
    rw [hstL]
    simp only [latchField, St.emit]
    rw [hstM, setMetrics_writes]
    rfl
  have hLr : stL.replies = goodReplies (plannedTail config) := by
    rw [hstL]
    simp only [latchField, St.emit]
    rw [hstM, setMetrics_replies]
    rfl
  obtain ⟨ha1, hw1, hr1, d1, htr1, hre1⟩ :=
    goodRun_gate (goodRun_performCommand .Ehlo ("EHLO " ++ config.Ehlo) 250 (by decide))
      (config.Ehlo != "") (true, stL)
      (goodReplies ((if config.StartTls then [Operation.StartTls] else [])
        ++ ((if config.From != "" then [Operation.MailFrom] else [])
        ++ ((if config.To != "" then [Operation.RcptTo] else [])
        ++ ((if config.Body != "" then [Operation.Data, Operation.Body] else [])
        ++ [Operation.Quit])))))
      rfl hLw
      (by rw [show ((true, stL) : Bool × St).2.replies = stL.replies from rfl, hLr]
          simp only [plannedTail]
          rw [goodReplies_append])
  obtain ⟨ha2, hw2, hr2, d2, htr2, hre2⟩ :=
    goodRun_gate (goodRun_runStartTls config hT) config.StartTls _
      (goodReplies ((if config.From != "" then [Operation.MailFrom] else [])
        ++ ((if config.To != "" then [Operation.RcptTo] else [])
        ++ ((if config.Body != "" then [Operation.Data, Operation.Body] else [])
        ++ [Operation.Quit]))))
      ha1 hw1 (by rw [hr1, goodReplies_append])
  obtain ⟨ha3, hw3, hr3, d3, htr3, hre3⟩ :=
    goodRun_gate (goodRun_performCommand .MailFrom ("MAIL FROM:" ++ config.From) 250 (by decide))
      (config.From != "") _
      (goodReplies ((if config.To != "" then [Operation.RcptTo] else [])
        ++ ((if config.Body != "" then [Operation.Data, Operation.Body] else [])
        ++ [Operation.Quit])))
      ha2 hw2 (by rw [hr2, goodReplies_append])
  obtain ⟨ha4, hw4, hr4, d4, htr4, hre4⟩ :=
    goodRun_gate (goodRun_performCommand .RcptTo ("RCPT TO:" ++ config.To) 250 (by decide))
      (config.To != "") _
      (goodReplies ((if config.Body != "" then [Operation.Data, Operation.Body] else [])
        ++ [Operation.Quit]))
      ha3 hw3 (by rw [hr3, goodReplies_append])
  obtain ⟨ha5, hw5, hr5, d5, htr5, hre5⟩ :=
    goodRun_gate (goodRun_runBody config) (config.Body != "") _
      (goodReplies [Operation.Quit])
      ha4 hw4 (by rw [hr4, goodReplies_append])
  obtain ⟨ha6, hw6, hr6, d6, htr6, hre6⟩ :=
    goodRun_gate (goodRun_performCommand .Quit "QUIT" 221 (by decide)) true _
      ([] : List WireReply)
      ha5 hw5 (by rw [hr5]; simp [goodReplies])
  simp only [latchField, St.emit]
  rw [htr6, htr5, htr4, htr3, htr2]
  rw [show ((true, stL) : Bool × St).2.trace = stL.trace from rfl] at htr1
  rw [htr1, hLtr]
  simp only [List.append_assoc, readEvents_append]
  rw [hre1, hre2, hre3, hre4, hre5, hre6]
  rw [plannedSteps_eq_cons]
  simp only [plannedTail]
  simp [readEvents, List.map_append, List.append_assoc]

/-- C6: steps are attempted in the fixed source order — the reads are
    always an in-order prefix of the planned steps (connect, then the
    configured ones among ehlo, starttls, from, to, data, body, then
    quit); a step is read only when every previously read step succeeded
    (all reads but the last are successes); and skipped optional steps do
    not block later ones: against a fully matching server, exactly the
    planned steps are read, all successfully. -/
theorem steps_fixed_order_and_gating (config : Smtp) (srv : Server) :
    (∃ t, plannedSteps config = readOps (SMTPGather config srv).trace ++ t) ∧
    (∀ pr ∈ (readEvents (SMTPGather config srv).trace).dropLast, pr.2 = true) ∧
    (srv.dial = DialResult.ok → srv.writes = [] → config.TlsConfigOk = true →
      srv.replies = goodReplies (plannedSteps config) →
      readEvents (SMTPGather config srv).trace
        = (plannedSteps config).map (fun op => (op, true))) :=
  ⟨(step_order_upto config srv).1, (step_order_upto config srv).2,
   fun h1 h2 h3 h4 => step_order_complete config srv h1 h2 h3 h4⟩

/-- C6 witness: with EHLO skipped and MAIL FROM configured, the matching
    server drives the session through connect, from and quit — the
    skipped EHLO does not block the later steps. -/
theorem steps_fixed_order_and_gating_witness :
    readEvents (SMTPGather cfgSkipEhlo srvSkipEhlo).trace
      = [(Operation.Connect, true), (Operation.MailFrom, true), (Operation.Quit, true)] := by
  have h := (steps_fixed_order_and_gating cfgSkipEhlo srvSkipEhlo).2.2 rfl rfl rfl rfl
  rw [h]
  decide

/-- C4 amended, witness: the TLS-configuration-error path at a concrete
    session that reached STARTTLS. -/
theorem tls_config_error_hard_stop_with_quit_witness :
    findKV (SMTPGather cfgTlsBad srvGreetOnly).tags "result" = some "tls_config_error" ∧
    Event.cmd "QUIT" true ∈ (SMTPGather cfgTlsBad srvGreetOnly).trace := by
  have h := tls_config_error_hard_stop_with_quit cfgTlsBad srvGreetOnly rfl rfl rfl rfl
    ⟨220, [], rfl, by decide, Or.inl rfl⟩
  exact ⟨h.1, h.2.2.1⟩
